import Mathlib

/-
Shallow embedding of the ACSI2STM firmware (src/acsi2stm.ino): the SD retry
layer (readBlock / writeBlock over the Sd2Card collaborator), and the command
dispatcher (the loop function) as a trace of observable events.  Hardware pin
manipulation, the watchdog and debug output are not observable behaviour and
are omitted; the SD collaborator and sdInit are oracles indexed by invocation
number.
-/

namespace Acsi2stm

/-- Maximum number of retries in case of SD card errors (MAXTRIES_SD). -/
def MAXTRIES_SD : Nat := 5

/-- Block size in bytes (BLOCKSIZE). -/
def BLOCKSIZE : Nat := 512

/-- Observable events of one command cycle: sdInit attempts, single-block
reads/writes issued by the storage access layer, DMA sends/receives of a byte
count, and the final status byte put on the bus by sendStatus. -/
inductive Event where
  | sdInit : Event
  | readBlock : Nat → Event
  | writeBlock : Nat → Event
  | send : Nat → Event
  | receive : Nat → Event
  | status : Nat → Event
deriving DecidableEq, Repr

/-- Result of one readBlock/writeBlock wrapper run: the boolean result,
the number of collaborator (card.readBlock / card.writeBlock) invocations,
and the number of sdInit invocations. -/
structure RetryResult where
  ok : Bool
  calls : Nat
  inits : Nat
deriving DecidableEq, Repr

/-- Shared body of the readBlock and writeBlock wrappers (the two source
functions are line-for-line identical).  `op n` is the outcome of the n-th
collaborator call, `sdI n` the outcome of the n-th sdInit call.  Mirrors
  int tries = MAXTRIES_SD;
  while(!card.xxxBlock(block, dataBuf) && tries-- > 0) \x7b
    if(tries <= MAXTRIES_SD / 2 && !sdInit()) return false;
  \x7d
  return tries > 0;
with the C post-decrement made explicit: the loop guard tests the old value
of tries and the body sees the decremented value. -/
def sdRetry (op : Nat → Bool) (sdI : Nat → Bool) : Nat → Nat → Nat → RetryResult
  | tries, calls, inits =>
    if op calls then ⟨decide (0 < tries), calls + 1, inits⟩
    else
      match tries with
      | 0 => ⟨false, calls + 1, inits⟩
      | t + 1 =>
        if t ≤ MAXTRIES_SD / 2 then
          if sdI inits then sdRetry op sdI t (calls + 1) (inits + 1)
          else ⟨false, calls + 1, inits + 1⟩
        else sdRetry op sdI t (calls + 1) inits

/-- Model of readBlock: retry card.readBlock on the given block, with
`card_read block n` the outcome of the n-th collaborator call on that block. -/
def readBlock (card_read : Nat → Nat → Bool) (sdI : Nat → Bool) (block : Nat) : RetryResult :=
  sdRetry (card_read block) sdI MAXTRIES_SD 0 0

/-- Model of writeBlock: retry card.writeBlock on the given block. -/
def writeBlock (card_write : Nat → Nat → Bool) (sdI : Nat → Bool) (block : Nat) : RetryResult :=
  sdRetry (card_write block) sdI MAXTRIES_SD 0 0

/-- A 6-byte command frame as stored in cmdBuf by waitCommand
(op is cmdBuf[0], already masked to 5 bits by waitCommand). -/
structure Frame where
  op : Nat
  b1 : Nat
  b2 : Nat
  b3 : Nat
  b4 : Nat
  b5 : Nat
deriving DecidableEq, Repr

/-- The 24-bit block number decoded from frame bytes 1-3:
  int block = (((int)cmdBuf[1])<<16) | (((int)cmdBuf[2]) << 8) | (cmdBuf[3]); -/
def blockNumber (f : Frame) : Nat :=
  (f.b1 <<< 16) ||| (f.b2 <<< 8) ||| f.b3

/-- The out-of-range test of the Read/Write block commands:
  if(block + cmdBuf[4] - 1 >= sdBlocks)
block and count are C ints and sdBlocks is uint32_t, so the signed left side
is converted to uint32_t for the comparison (hence the explicit mod 2^32 on
the integer value, which matters when block = count = 0). -/
def rangeError (block count cap : Nat) : Bool :=
  decide (cap ≤ ((((block : Int) + (count : Int) - 1) % (2 ^ 32 : Int)).toNat))

/-- The per-block loop of the Read-block command (opcode 0x08):
  for(int blocks = cmdBuf[4]; blocks--; block++) \x7b
    if(!readBlock(block)) \x7b commandError(); return; \x7d
    sendDma(BLOCKSIZE);
  \x7d
  commandSuccess();
`rb i` is the result of the i-th readBlock wrapper call of this command. -/
def readLoop (rb : Nat → Bool) : Nat → Nat → Nat → List Event
  | _, _, 0 => [Event.status 0]
  | i, block, n + 1 =>
    if rb i then
      Event.readBlock block :: Event.send BLOCKSIZE :: readLoop rb (i + 1) (block + 1) n
    else [Event.readBlock block, Event.status 2]

/-- The per-block loop of the Write-block command (opcode 0x0A):
  for(int blocks = cmdBuf[4]; blocks--; block++) \x7b
    readDma(BLOCKSIZE);
    if(!writeBlock(block)) \x7b commandError(); return; \x7d
  \x7d
  commandSuccess(); -/
def writeLoop (wb : Nat → Bool) : Nat → Nat → Nat → List Event
  | _, _, 0 => [Event.status 0]
  | i, block, n + 1 =>
    if wb i then
      Event.receive BLOCKSIZE :: Event.writeBlock block :: writeLoop wb (i + 1) (block + 1) n
    else [Event.receive BLOCKSIZE, Event.writeBlock block, Event.status 2]

/-- The switch(cmdBuf[0]) of the loop function, given that the SD card is
ready.  `sdI k` is the outcome of the k-th sdInit call of this command cycle
(none = failure, some c = success with the new card size c); k is the number
of sdInit calls already made before dispatching.  `rb`/`wb` give the results
of the readBlock/writeBlock wrapper calls in order.  `cap` is sdBlocks. -/
def dispatch (sdI : Nat → Option Nat) (k : Nat) (rb wb : Nat → Bool) (cap : Nat)
    (f : Frame) : List Event :=
  if f.op = 0x0B ∨ f.op = 0x0D ∨ f.op = 0x15 ∨ f.op = 0x1B then
    [Event.status 0]
  else if f.op = 0x00 ∨ f.op = 0x04 ∨ f.op = 0x05 ∨ f.op = 0x06 then
    match sdI k with
    | none => [Event.sdInit, Event.status 2]
    | some _ => [Event.sdInit, Event.status 0]
  else if f.op = 0x03 then
    match sdI k with
    | none => [Event.sdInit, Event.status 2]
    | some _ => [Event.sdInit, Event.send f.b4, Event.status 0]
  else if f.op = 0x08 then
    if rangeError (blockNumber f) f.b4 cap then [Event.status 2]
    else readLoop rb 0 (blockNumber f) f.b4
  else if f.op = 0x0A then
    if rangeError (blockNumber f) f.b4 cap then [Event.status 2]
    else writeLoop wb 0 (blockNumber f) f.b4
  else if f.op = 0x12 then
    [Event.send f.b4, Event.status 0]
  else if f.op = 0x1A then
    if f.b2 = 0x00 then [Event.send 16, Event.status 0]
    else if f.b2 = 0x04 then [Event.send 24, Event.status 0]
    else [Event.status 0]
  else
    [Event.status 2]

/-- One iteration of the main loop, after waitCommand has filled cmdBuf with
the frame f.  sdReady and sdBlocks are the current globals; on a successful
sdInit the card size reported by that call replaces sdBlocks. -/
def loopModel (sdReady : Bool) (sdI : Nat → Option Nat) (rb wb : Nat → Bool)
    (sdBlocks : Nat) (f : Frame) : List Event :=
  if sdReady then dispatch sdI 0 rb wb sdBlocks f
  else
    match sdI 0 with
    | none => [Event.sdInit, Event.status 2]
    | some c => Event.sdInit :: dispatch sdI 1 rb wb c f

/-- Point update of a byte buffer modelled as a function. -/
def updBuf (buf : Nat → Nat) (i v : Nat) : Nat → Nat :=
  fun j => if j = i then v else buf j

/-- Ascending zero-fill of the first n cells of the buffer:
  for(uint8_t b = 0; b < n; ++b) dataBuf[b] = 0; -/
def zeroFill (buf : Nat → Nat) : Nat → (Nat → Nat)
  | 0 => buf
  | n + 1 => updBuf (zeroFill buf n) n 0

/-- Buffer state produced by the Mode-sense sub-page 4 branch, write for
write in source order: dataBuf[0]=4; dataBuf[1]=22; dataBuf[2..4]=capacity
shifted right by 23/15/7 bits; dataBuf[5]=128; then the zero loop over
bytes 0..23. -/
def modeSense4Buf (sdBlocks : Nat) (buf : Nat → Nat) : Nat → Nat :=
  zeroFill
    (updBuf
      (updBuf
        (updBuf
          (updBuf
            (updBuf (updBuf buf 0 4) 1 22)
            2 ((sdBlocks >>> 23) &&& 255))
          3 ((sdBlocks >>> 15) &&& 255))
        4 ((sdBlocks >>> 7) &&& 255))
      5 128)
    24

/-- The 24 bytes handed to sendDma(24) by the Mode-sense sub-page 4 branch. -/
def modeSense4Bytes (sdBlocks : Nat) (buf : Nat → Nat) : List Nat :=
  (List.range 24).map (modeSense4Buf sdBlocks buf)

/-- Recognizer for status events. -/
def isStatus : Event → Bool
  | Event.status _ => true
  | _ => false

/-- An event is either not a status, or a status byte 0 or 2. -/
def statusOk : Event → Bool
  | Event.status s => decide (s = 0) || decide (s = 2)
  | _ => true

/-- A trace consists of status-free events followed by exactly one final
status event. -/
def endsOneStatus (tr : List Event) : Prop :=
  ∃ pre s, tr = pre ++ [Event.status s] ∧ pre.filter isStatus = []

/- Helper lemmas (shared infrastructure, not tied to a single claim). -/

/-- If the collaborator fails on every invocation, the retry loop returns
failure and makes at most tries + 1 collaborator calls beyond those already
counted. -/
theorem sdRetry_allFail (op sdI : Nat → Bool) (h : ∀ j, op j = false) :
    ∀ tries calls inits, (sdRetry op sdI tries calls inits).ok = false ∧
      (sdRetry op sdI tries calls inits).calls ≤ calls + tries + 1 := by
  intro tries
  induction tries with
  | zero => intro calls inits; simp [sdRetry, h]
  | succ t ih =>
    intro calls inits
    rw [sdRetry]
    simp only [h, Bool.false_eq_true, if_false]
    by_cases h2 : t ≤ MAXTRIES_SD / 2
    · simp only [h2, if_true]
      cases hsd : sdI inits with
      | true =>
        rw [if_pos rfl]
        have := ih (calls + 1) (inits + 1)
        exact ⟨this.1, by omega⟩
      | false => simp
    · simp only [h2, if_false]
      have := ih (calls + 1) inits
      exact ⟨this.1, by omega⟩

/-- Bitwise or of two numbers below a power of two stays below it. -/
theorem lor_lt_two_pow (x y n : Nat) (hx : x < 2 ^ n) (hy : y < 2 ^ n) :
    (x ||| y) < 2 ^ n :=
  Nat.bitwise_lt hx hy

/-- With byte-sized frame fields the decoded block number fits in 24 bits. -/
theorem blockNumber_lt (f : Frame) (h1 : f.b1 < 256) (h2 : f.b2 < 256) (h3 : f.b3 < 256) :
    blockNumber f < 2 ^ 24 := by
  unfold blockNumber
  apply lor_lt_two_pow
  · apply lor_lt_two_pow
    · rw [Nat.shiftLeft_eq]; omega
    · rw [Nat.shiftLeft_eq]
      have : f.b2 * 2 ^ 8 < 2 ^ 16 := by omega
      omega
  · omega

/-- A nonempty-or-offset in-range request passes the out-of-range test. -/
theorem rangeError_false_of_inRange (block count cap : Nat)
    (hb : block < 2 ^ 24) (hc : count < 256)
    (hin : block + count ≤ cap) (hnz : ¬(block = 0 ∧ count = 0)) :
    rangeError block count cap = false := by
  unfold rangeError
  simp only [decide_eq_false_iff_not, not_le]
  have h1 : (0 : Int) ≤ (block : Int) + count - 1 := by omega
  have h2 : (block : Int) + count - 1 < 2 ^ 32 := by omega
  rw [Int.emod_eq_of_lt h1 h2]
  omega

/-- A request reaching past the capacity fails the out-of-range test. -/
theorem rangeError_true_of_overflow (block count cap : Nat)
    (hb : block < 2 ^ 24) (hc : count < 256)
    (hover : cap < block + count) :
    rangeError block count cap = true := by
  unfold rangeError
  simp only [decide_eq_true_eq]
  have h1 : (0 : Int) ≤ (block : Int) + count - 1 := by omega
  have h2 : (block : Int) + count - 1 < 2 ^ 32 := by omega
  rw [Int.emod_eq_of_lt h1 h2]
  omega

/-- When every readBlock wrapper call succeeds, the Read-block loop emits the
fully interleaved trace over ascending block numbers. -/
theorem readLoop_allTrue (rb : Nat → Bool) (h : ∀ n, rb n = true) (n : Nat) :
    ∀ i block, readLoop rb i block n =
      ((List.range n).map
        (fun j => [Event.readBlock (block + j), Event.send BLOCKSIZE])).flatten
        ++ [Event.status 0] := by
  induction n with
  | zero => intro i block; simp [readLoop]
  | succ m ih =>
    intro i block
    rw [readLoop, h i, if_pos rfl, ih (i + 1) (block + 1)]
    rw [List.range_succ_eq_map]
    simp only [List.map_cons, List.map_map, List.flatten_cons, Nat.add_zero,
      List.cons_append, List.nil_append, List.append_assoc]
    have : ((fun j => [Event.readBlock (block + j), Event.send BLOCKSIZE]) ∘ (· + 1)) =
        fun j => [Event.readBlock (block + 1 + j), Event.send BLOCKSIZE] := by
      funext j
      simp only [Function.comp_apply]
      congr 2
      omega
    rw [this]

/-- When every writeBlock wrapper call succeeds, the Write-block loop emits
the fully interleaved trace over ascending block numbers. -/
theorem writeLoop_allTrue (wb : Nat → Bool) (h : ∀ n, wb n = true) (n : Nat) :
    ∀ i block, writeLoop wb i block n =
      ((List.range n).map
        (fun j => [Event.receive BLOCKSIZE, Event.writeBlock (block + j)])).flatten
        ++ [Event.status 0] := by
  induction n with
  | zero => intro i block; simp [writeLoop]
  | succ m ih =>
    intro i block
    rw [writeLoop, h i, if_pos rfl, ih (i + 1) (block + 1)]
    rw [List.range_succ_eq_map]
    simp only [List.map_cons, List.map_map, List.flatten_cons, Nat.add_zero,
      List.cons_append, List.nil_append, List.append_assoc]
    have : ((fun j => [Event.receive BLOCKSIZE, Event.writeBlock (block + j)]) ∘ (· + 1)) =
        fun j => [Event.receive BLOCKSIZE, Event.writeBlock (block + 1 + j)] := by
      funext j
      simp only [Function.comp_apply]
      congr 3
      omega
    rw [this]

/-- A lone status byte is a well-formed trace ending. -/
theorem endsOneStatus_single (s : Nat) : endsOneStatus [Event.status s] :=
  ⟨[], s, rfl, rfl⟩

/-- Prepending a non-status event preserves the one-final-status shape. -/
theorem endsOneStatus_cons (e : Event) (tr : List Event) (he : isStatus e = false)
    (h : endsOneStatus tr) : endsOneStatus (e :: tr) := by
  obtain ⟨pre, s, h1, h2⟩ := h
  exact ⟨e :: pre, s, by rw [h1, List.cons_append], by simp [List.filter_cons, he, h2]⟩

/-- The Read-block loop always ends in exactly one status. -/
theorem endsOneStatus_readLoop (rb : Nat → Bool) (n : Nat) :
    ∀ i block, endsOneStatus (readLoop rb i block n) := by
  induction n with
  | zero => intro i block; exact endsOneStatus_single 0
  | succ m ih =>
    intro i block
    rw [readLoop]
    cases h : rb i with
    | true =>
      rw [if_pos rfl]
      exact endsOneStatus_cons _ _ rfl (endsOneStatus_cons _ _ rfl (ih (i + 1) (block + 1)))
    | false =>
      rw [if_neg (by simp)]
      exact ⟨[Event.readBlock block], 2, rfl, rfl⟩

/-- The Write-block loop always ends in exactly one status. -/
theorem endsOneStatus_writeLoop (wb : Nat → Bool) (n : Nat) :
    ∀ i block, endsOneStatus (writeLoop wb i block n) := by
  induction n with
  | zero => intro i block; exact endsOneStatus_single 0
  | succ m ih =>
    intro i block
    rw [writeLoop]
    cases h : wb i with
    | true =>
      rw [if_pos rfl]
      exact endsOneStatus_cons _ _ rfl (endsOneStatus_cons _ _ rfl (ih (i + 1) (block + 1)))
    | false =>
      rw [if_neg (by simp)]
      exact ⟨[Event.receive BLOCKSIZE, Event.writeBlock block], 2, rfl, rfl⟩

/-- Every dispatch branch ends in exactly one status. -/
theorem endsOneStatus_dispatch (sdI : Nat → Option Nat) (k : Nat) (rb wb : Nat → Bool)
    (cap : Nat) (f : Frame) : endsOneStatus (dispatch sdI k rb wb cap f) := by
  unfold dispatch
  split_ifs <;>
    try cases sdI k <;>
    first
    | exact endsOneStatus_single _
    | exact endsOneStatus_cons _ _ rfl (endsOneStatus_single _)
    | exact endsOneStatus_cons _ _ rfl (endsOneStatus_cons _ _ rfl (endsOneStatus_single _))
    | exact endsOneStatus_readLoop rb f.b4 0 (blockNumber f)
    | exact endsOneStatus_writeLoop wb f.b4 0 (blockNumber f)

/-- The Read-block loop emits only status bytes 0 and 2. -/
theorem statusOk_readLoop (rb : Nat → Bool) (n : Nat) :
    ∀ i block, (readLoop rb i block n).all statusOk = true := by
  induction n with
  | zero => intro i block; rfl
  | succ m ih =>
    intro i block
    rw [readLoop]
    cases h : rb i with
    | true =>
      rw [if_pos rfl]
      simp only [List.all_cons, Bool.and_eq_true]
      exact ⟨rfl, rfl, ih (i + 1) (block + 1)⟩
    | false => rfl

/-- The Write-block loop emits only status bytes 0 and 2. -/
theorem statusOk_writeLoop (wb : Nat → Bool) (n : Nat) :
    ∀ i block, (writeLoop wb i block n).all statusOk = true := by
  induction n with
  | zero => intro i block; rfl
  | succ m ih =>
    intro i block
    rw [writeLoop]
    cases h : wb i with
    | true =>
      rw [if_pos rfl]
      simp only [List.all_cons, Bool.and_eq_true]
      exact ⟨rfl, rfl, ih (i + 1) (block + 1)⟩
    | false => rfl

/-- Every dispatch branch emits only status bytes 0 and 2. -/
theorem statusOk_dispatch (sdI : Nat → Option Nat) (k : Nat) (rb wb : Nat → Bool)
    (cap : Nat) (f : Frame) : (dispatch sdI k rb wb cap f).all statusOk = true := by
  unfold dispatch
  split_ifs <;>
    try cases sdI k <;>
    first
    | rfl
    | exact statusOk_readLoop rb f.b4 0 (blockNumber f)
    | exact statusOk_writeLoop wb f.b4 0 (blockNumber f)

/-- Zero-filling the first n cells makes every cell below n zero. -/
theorem zeroFill_eq_zero (buf : Nat → Nat) :
    ∀ n j, j < n → zeroFill buf n j = 0 := by
  intro n
  induction n with
  | zero => intro j h; omega
  | succ m ih =>
    intro j h
    by_cases hj : j = m
    · simp [zeroFill, updBuf, hj]
    · have hjm : j < m := by omega
      simp [zeroFill, updBuf, hj, ih j hjm]

/- Claim theorems. -/

/-- C1 (amended): for a Read-block (0x08) or Write-block (0x0A) frame whose
block range lies within the capacity, with successful per-block storage
operations, and which is not the single frame with start index 0 and count 0,
the dispatcher emits exactly count ReadBlock calls on ascending indices from
the 24-bit address of bytes 1-3 each followed by a Send of 512 bytes
(respectively count Receive(512) each followed by a WriteBlock on the
ascending index) and then success status. -/
theorem C1_read_write_interleaving (sdI : Nat → Option Nat) (rb wb : Nat → Bool)
    (cap : Nat) (f : Frame)
    (hb1 : f.b1 < 256) (hb2 : f.b2 < 256) (hb3 : f.b3 < 256) (hb4 : f.b4 < 256)
    (hrb : ∀ n, rb n = true) (hwb : ∀ n, wb n = true)
    (hin : blockNumber f + f.b4 ≤ cap)
    (hnz : ¬(blockNumber f = 0 ∧ f.b4 = 0)) :
    (f.op = 0x08 → loopModel true sdI rb wb cap f =
      ((List.range f.b4).map
        (fun j => [Event.readBlock (blockNumber f + j), Event.send BLOCKSIZE])).flatten
        ++ [Event.status 0]) ∧
    (f.op = 0x0A → loopModel true sdI rb wb cap f =
      ((List.range f.b4).map
        (fun j => [Event.receive BLOCKSIZE, Event.writeBlock (blockNumber f + j)])).flatten
        ++ [Event.status 0]) := by
  have hre : rangeError (blockNumber f) f.b4 cap = false :=
    rangeError_false_of_inRange _ _ _ (blockNumber_lt f hb1 hb2 hb3) hb4 hin hnz
  constructor
  · intro hop
    simp [loopModel, dispatch, hop, hre, readLoop_allTrue rb hrb f.b4 0 (blockNumber f)]
  · intro hop
    simp [loopModel, dispatch, hop, hre, writeLoop_allTrue wb hwb f.b4 0 (blockNumber f)]

/-- C1 counterexample: the Read-block frame with start index 0 and count 0
has its (empty) block range within capacity 100, yet the signed-to-unsigned
wrap of block + count - 1 makes the dispatcher reject it with error status
instead of sending success. -/
theorem C1_counterexample :
    loopModel true (fun _ => none) (fun _ => true) (fun _ => true) 100
      ⟨0x08, 0, 0, 0, 0, 0⟩ = [Event.status 2] ∧
    loopModel true (fun _ => none) (fun _ => true) (fun _ => true) 100
      ⟨0x08, 0, 0, 0, 0, 0⟩ ≠ [Event.status 0] := by
  constructor
  · rfl
  · decide

/-- Witness for C1: Read-block of blocks 10 and 11 against capacity 100
produces exactly two ReadBlock calls, two Send(512), and success. -/
theorem C1_witness :
    loopModel true (fun _ => none) (fun _ => true) (fun _ => true) 100
      ⟨0x08, 0, 0, 10, 2, 0⟩ =
      [Event.readBlock 10, Event.send 512, Event.readBlock 11, Event.send 512,
        Event.status 0] := by
  have h := (C1_read_write_interleaving (fun _ => none) (fun _ => true) (fun _ => true) 100
      ⟨0x08, 0, 0, 10, 2, 0⟩ (by norm_num) (by norm_num) (by norm_num) (by norm_num)
      (fun _ => rfl) (fun _ => rfl) (by decide) (by decide)).1 rfl
  rw [h]
  decide

/-- C2 (code bug): the Mode-sense sub-page 4 branch zero-fills all 24 buffer
bytes after writing the constants and the capacity fields, so the 24 bytes
handed to sendDma are all zero for every capacity and every prior buffer
state, contradicting the claimed page layout. -/
theorem C2_modeSense4_sends_zeros (sdBlocks : Nat) (buf : Nat → Nat) :
    modeSense4Bytes sdBlocks buf = List.replicate 24 0 := by
  unfold modeSense4Bytes
  rw [List.eq_replicate_iff]
  refine ⟨by simp, ?_⟩
  intro b hb
  simp only [List.mem_map, List.mem_range] at hb
  obtain ⟨j, hj, rfl⟩ := hb
  exact zeroFill_eq_zero _ 24 j hj

/-- C3 (amended): with a collaborator that fails every call, readBlock and
writeBlock invoke the collaborator at most MAXTRIES_SD + 1 = 6 times (one
initial attempt plus up to MAXTRIES_SD retries) and return failure. -/
theorem C3_retry_bound (card_read card_write : Nat → Nat → Bool) (sdI : Nat → Bool)
    (block : Nat) (hr : ∀ i, card_read block i = false)
    (hw : ∀ i, card_write block i = false) :
    (readBlock card_read sdI block).calls ≤ MAXTRIES_SD + 1 ∧
    (readBlock card_read sdI block).ok = false ∧
    (writeBlock card_write sdI block).calls ≤ MAXTRIES_SD + 1 ∧
    (writeBlock card_write sdI block).ok = false := by
  have h1 := sdRetry_allFail (card_read block) sdI hr MAXTRIES_SD 0 0
  have h2 := sdRetry_allFail (card_write block) sdI hw MAXTRIES_SD 0 0
  exact ⟨by simpa [readBlock] using h1.2, by simpa [readBlock] using h1.1,
    by simpa [writeBlock] using h2.2, by simpa [writeBlock] using h2.1⟩

/-- C3 counterexample: with an always-failing collaborator and always
succeeding reinitialization, readBlock invokes the collaborator 6 times,
not at most MAXTRIES_SD = 5. -/
theorem C3_counterexample :
    ¬ ((readBlock (fun _ _ => false) (fun _ => true) 0).calls ≤ MAXTRIES_SD) ∧
    (readBlock (fun _ _ => false) (fun _ => true) 0).calls = 6 ∧
    (writeBlock (fun _ _ => false) (fun _ => true) 0).calls = 6 := by
  decide

/-- Witness for C3: concrete always-failing collaborator with failing
reinitialization stays within the 6-call bound and reports failure. -/
theorem C3_witness :
    (readBlock (fun _ _ => false) (fun _ => false) 3).calls ≤ MAXTRIES_SD + 1 ∧
    (readBlock (fun _ _ => false) (fun _ => false) 3).ok = false ∧
    (writeBlock (fun _ _ => false) (fun _ => false) 3).calls ≤ MAXTRIES_SD + 1 ∧
    (writeBlock (fun _ _ => false) (fun _ => false) 3).ok = false :=
  C3_retry_bound (fun _ _ => false) (fun _ _ => false) (fun _ => false) 3
    (fun _ => rfl) (fun _ => rfl)

/-- C4 (amended): with a collaborator that fails every call, readBlock and
writeBlock attempt sdInit after each failed attempt once the remaining retry
count is at most MAXTRIES_SD / 2: exactly 3 times when every reinitialization
succeeds; and whichever sdInit attempt is the first to fail (attempt index
k = 0, 1 or 2), the operation returns failure immediately after it, having
made 3 + k collaborator calls and k + 1 sdInit attempts. -/
theorem C4_reinit (card_read card_write : Nat → Nat → Bool) (sdI : Nat → Bool)
    (block : Nat) (hr : ∀ i, card_read block i = false)
    (hw : ∀ i, card_write block i = false) :
    ((∀ j, sdI j = true) →
      (readBlock card_read sdI block).inits = 3 ∧
      (writeBlock card_write sdI block).inits = 3) ∧
    (∀ k, k < 3 → (∀ j, j < k → sdI j = true) → sdI k = false →
      readBlock card_read sdI block = ⟨false, 3 + k, k + 1⟩ ∧
      writeBlock card_write sdI block = ⟨false, 3 + k, k + 1⟩) := by
  constructor
  · intro hs
    constructor <;> simp [readBlock, writeBlock, sdRetry, hr, hw, hs, MAXTRIES_SD]
  · intro k hk hprev hfail
    interval_cases k
    · constructor <;>
        simp [readBlock, writeBlock, sdRetry, hr, hw, hfail, MAXTRIES_SD]
    · constructor <;>
        simp [readBlock, writeBlock, sdRetry, hr, hw, hprev 0 (by norm_num), hfail,
          MAXTRIES_SD]
    · constructor <;>
        simp [readBlock, writeBlock, sdRetry, hr, hw, hprev 0 (by norm_num),
          hprev 1 (by norm_num), hfail, MAXTRIES_SD]

/-- C4 counterexample: with an always-failing collaborator and always
succeeding reinitialization, readBlock attempts sdInit 3 times, not exactly
once. -/
theorem C4_counterexample :
    (readBlock (fun _ _ => false) (fun _ => true) 0).inits = 3 ∧
    (readBlock (fun _ _ => false) (fun _ => true) 0).inits ≠ 1 ∧
    (writeBlock (fun _ _ => false) (fun _ => true) 0).inits = 3 := by
  decide

/-- Witness for C4: an always-failing collaborator with always succeeding
reinitialization reaches 3 sdInit attempts, and with the second sdInit
attempt failing the operation stops right there with 4 collaborator calls
and 2 sdInit attempts. -/
theorem C4_witness :
    ((readBlock (fun _ _ => false) (fun _ => true) 7).inits = 3 ∧
      (writeBlock (fun _ _ => false) (fun _ => true) 7).inits = 3) ∧
    (readBlock (fun _ _ => false) (fun j => decide (j < 1)) 7 = ⟨false, 4, 2⟩ ∧
      writeBlock (fun _ _ => false) (fun j => decide (j < 1)) 7 = ⟨false, 4, 2⟩) :=
  ⟨(C4_reinit (fun _ _ => false) (fun _ _ => false) (fun _ => true) 7
      (fun _ => rfl) (fun _ => rfl)).1 (fun _ => rfl),
    (C4_reinit (fun _ _ => false) (fun _ _ => false) (fun j => decide (j < 1)) 7
      (fun _ => rfl) (fun _ => rfl)).2 1 (by norm_num)
      (fun j hj => decide_eq_true hj) rfl⟩

/-- C5 (confirmed): a Read-block or Write-block frame whose start index plus
count exceeds the capacity is rejected with error status only: no storage
call and no DMA transfer appears in the trace. -/
theorem C5_out_of_range (sdI : Nat → Option Nat) (rb wb : Nat → Bool) (cap : Nat)
    (f : Frame) (hop : f.op = 0x08 ∨ f.op = 0x0A)
    (hb1 : f.b1 < 256) (hb2 : f.b2 < 256) (hb3 : f.b3 < 256) (hb4 : f.b4 < 256)
    (hover : cap < blockNumber f + f.b4) :
    loopModel true sdI rb wb cap f = [Event.status 2] := by
  have hre := rangeError_true_of_overflow (blockNumber f) f.b4 cap
    (blockNumber_lt f hb1 hb2 hb3) hb4 hover
  rcases hop with hop | hop <;> simp [loopModel, dispatch, hop, hre]

/-- Witness for C5: Read-block for index 99, count 5, against capacity 100 is
rejected with error status and an otherwise empty trace. -/
theorem C5_witness :
    loopModel true (fun _ => none) (fun _ => true) (fun _ => true) 100
      ⟨0x08, 0, 0, 99, 5, 0⟩ = [Event.status 2] :=
  C5_out_of_range (fun _ => none) (fun _ => true) (fun _ => true) 100
    ⟨0x08, 0, 0, 99, 5, 0⟩ (Or.inl rfl) (by norm_num) (by norm_num) (by norm_num)
    (by norm_num) (by decide)

/-- C6 (confirmed): when the card is not ready and the sdInit attempt fails,
the command cycle is exactly one sdInit attempt followed by error status,
for every frame, with no storage call and no DMA transfer. -/
theorem C6_not_ready_init_fail (sdI : Nat → Option Nat) (rb wb : Nat → Bool)
    (cap : Nat) (f : Frame) (h : sdI 0 = none) :
    loopModel false sdI rb wb cap f = [Event.sdInit, Event.status 2] := by
  simp [loopModel, h]

/-- Witness for C6: a concrete failing sdInit yields the two-event trace. -/
theorem C6_witness :
    loopModel false (fun _ => none) (fun _ => true) (fun _ => true) 100
      ⟨0x08, 1, 2, 3, 4, 5⟩ = [Event.sdInit, Event.status 2] :=
  C6_not_ready_init_fail (fun _ => none) (fun _ => true) (fun _ => true) 100
    ⟨0x08, 1, 2, 3, 4, 5⟩ rfl

/-- C7 (confirmed): every command cycle, for every frame, readiness state and
collaborator outcome sequence, consists of status-free events followed by
exactly one final status. -/
theorem C7_one_status (sdReady : Bool) (sdI : Nat → Option Nat) (rb wb : Nat → Bool)
    (cap : Nat) (f : Frame) : endsOneStatus (loopModel sdReady sdI rb wb cap f) := by
  cases sdReady with
  | true =>
    rw [loopModel, if_pos rfl]
    exact endsOneStatus_dispatch sdI 0 rb wb cap f
  | false =>
    rw [loopModel, if_neg (by simp)]
    cases h : sdI 0 with
    | none => exact endsOneStatus_cons _ _ rfl (endsOneStatus_single 2)
    | some c => exact endsOneStatus_cons _ _ rfl (endsOneStatus_dispatch sdI 1 rb wb c f)

/-- C8 (confirmed): every event of every command cycle is either not a status
or a status with byte 0 or 2; no other status byte is ever produced. -/
theorem C8_status_codes (sdReady : Bool) (sdI : Nat → Option Nat) (rb wb : Nat → Bool)
    (cap : Nat) (f : Frame) :
    (loopModel sdReady sdI rb wb cap f).all statusOk = true := by
  cases sdReady with
  | true =>
    rw [loopModel, if_pos rfl]
    exact statusOk_dispatch sdI 0 rb wb cap f
  | false =>
    rw [loopModel, if_neg (by simp)]
    cases h : sdI 0 with
    | none => rfl
    | some c =>
      simp only [List.all_cons, Bool.and_eq_true]
      exact ⟨rfl, statusOk_dispatch sdI 1 rb wb c f⟩

/-- C9 (confirmed): when the collaborator fails the first 5 calls and
succeeds on the 6th while reinitializations succeed, readBlock and writeBlock
perform that successful 6th collaborator call (calls = 6, after 3 sdInit
attempts) yet return failure, because the retry counter has reached zero. -/
theorem C9_sixth_success_still_fails (card_read card_write : Nat → Nat → Bool)
    (sdI : Nat → Bool) (block : Nat)
    (hr : ∀ i, i < 5 → card_read block i = false) (hr5 : card_read block 5 = true)
    (hw : ∀ i, i < 5 → card_write block i = false) (hw5 : card_write block 5 = true)
    (hs : ∀ j, sdI j = true) :
    readBlock card_read sdI block = ⟨false, 6, 3⟩ ∧
    writeBlock card_write sdI block = ⟨false, 6, 3⟩ := by
  constructor <;>
    simp [readBlock, writeBlock, sdRetry, MAXTRIES_SD, hs,
      hr 0 (by norm_num), hr 1 (by norm_num), hr 2 (by norm_num),
      hr 3 (by norm_num), hr 4 (by norm_num), hr5,
      hw 0 (by norm_num), hw 1 (by norm_num), hw 2 (by norm_num),
      hw 3 (by norm_num), hw 4 (by norm_num), hw5]

/-- Witness for C9: the concrete collaborator succeeding from the 6th call on
still yields failure with 6 calls and 3 reinitializations. -/
theorem C9_witness :
    readBlock (fun _ i => decide (5 ≤ i)) (fun _ => true) 10 = ⟨false, 6, 3⟩ ∧
    writeBlock (fun _ i => decide (5 ≤ i)) (fun _ => true) 10 = ⟨false, 6, 3⟩ :=
  C9_sixth_success_still_fails (fun _ i => decide (5 ≤ i)) (fun _ i => decide (5 ≤ i))
    (fun _ => true) 10
    (fun i hi => by simp [decide_eq_false_iff_not]; omega) rfl
    (fun i hi => by simp [decide_eq_false_iff_not]; omega) rfl
    (fun _ => rfl)

/-- C10 (confirmed): a Mode-sense frame (opcode 0x1A) whose sub-page byte is
neither 0x00 nor 0x04 yields success status with no DMA transfer and no
storage call. -/
theorem C10_mode_sense_other (sdI : Nat → Option Nat) (rb wb : Nat → Bool)
    (cap : Nat) (f : Frame) (hop : f.op = 0x1A) (h0 : f.b2 ≠ 0x00) (h4 : f.b2 ≠ 0x04) :
    loopModel true sdI rb wb cap f = [Event.status 0] := by
  simp [loopModel, dispatch, hop, h0, h4]

/-- Witness for C10: Mode-sense with sub-page byte 1 sends bare success. -/
theorem C10_witness :
    loopModel true (fun _ => none) (fun _ => true) (fun _ => true) 100
      ⟨0x1A, 0, 1, 0, 0, 0⟩ = [Event.status 0] :=
  C10_mode_sense_other (fun _ => none) (fun _ => true) (fun _ => true) 100
    ⟨0x1A, 0, 1, 0, 0, 0⟩ rfl (by norm_num) (by norm_num)

end Acsi2stm
